import Mathlib

/-!
Shallow embedding of the PharmaSync inventory core: the `ProductController`
(create / update / updateStock / delete / getOne / getLowStock), the
`product.schemas` zod validation shapes, and the Prisma data model
(`Product`, `InventoryLog`, `ProductStatus`, `LogType`).

The database is modelled as an explicit state (`DB`) holding the product
table and the inventory-log table.  Each controller action is a function
from a `DB` (plus its request payload) to a pair of the resulting `DB`
and an `Except ApiError result`.  A Prisma transaction whose callback
throws rolls the unit back, so an action that fails inside a transaction
returns the original `DB` unchanged.  `createProduct` is the one write
path that does NOT wrap its two writes in a transaction in the source;
its embedding therefore takes a failure flag for the second write so the
non-atomic behaviour is observable.
-/

/-- Movement kinds of an inventory log entry (Prisma enum `LogType`). -/
inductive LogType where
  | PURCHASE
  | SALE
  | ADJUSTMENT
  | RETURN
  | EXPIRED
  | DAMAGED
deriving DecidableEq, Repr

/-- Product lifecycle states (Prisma enum `ProductStatus`). -/
inductive ProductStatus where
  | ACTIVE
  | DISCONTINUED
  | OUT_OF_STOCK
  | EXPIRED
deriving DecidableEq, Repr

/-- One row of the `Product` table; only the columns the inventory core
reads or writes are modelled (`quantity` is a signed SQL INTEGER). -/
structure Product where
  id : Nat
  sku : String
  barcode : Option String
  quantity : Int
  reorderPoint : Int
  status : ProductStatus
deriving DecidableEq, Repr

/-- One row of the `InventoryLog` table (`quantity` is a signed SQL
INTEGER; the controller stores the requested quantity verbatim). -/
structure InventoryLog where
  productId : Nat
  type : LogType
  quantity : Int
  reason : Option String
deriving DecidableEq, Repr

/-- The persistent state: the `Product` table and the `InventoryLog`
table. -/
structure DB where
  products : List Product
  logs : List InventoryLog
deriving DecidableEq, Repr

/-- The error taxonomy of the error-handler module: `NotFoundError` (404),
`ValidationError` (400), `ConflictError` (409), plus a storage-layer
failure for a Prisma call that errors out. -/
inductive ApiError where
  | notFound (message : String)
  | validation (message : String)
  | conflict (message : String)
  | storage (message : String)
deriving DecidableEq, Repr

deriving instance DecidableEq for Except

/-- The failure `updateStock` raises when a decreasing movement would
drive the quantity negative — in the source `throw new
ValidationError('Insufficient stock')`, the spec's InsufficientStockError. -/
def InsufficientStockError : ApiError := .validation "Insufficient stock"

/-- The failure raised when no product row matches the requested id — in
the source `throw new NotFoundError('Product not found')`. -/
def ProductNotFoundError : ApiError := .notFound "Product not found"

/-- Request body accepted by `stockUpdateSchema`: quantity is validated
as `z.number().int()` only (any integer — no sign constraint), type is
one of the six `LogType` values, reason is an optional string. -/
structure StockUpdate where
  quantity : Int
  type : LogType
  reason : Option String
deriving DecidableEq, Repr

/-- Request body accepted by `productCreateSchema`, restricted to the
columns the core reads or writes.  The zod lower bounds on quantity and
reorderPoint are captured by `ProductCreate.valid`. -/
structure ProductCreate where
  sku : String
  barcode : Option String
  quantity : Int
  reorderPoint : Int
  status : Option ProductStatus
deriving DecidableEq, Repr

/-- The bounds `productCreateSchema` places on numeric fields:
quantity and reorderPoint are non-negative integers (`.int().min(0)`). -/
def ProductCreate.valid (d : ProductCreate) : Prop :=
  0 ≤ d.quantity ∧ 0 ≤ d.reorderPoint

instance (d : ProductCreate) : Decidable d.valid := by
  unfold ProductCreate.valid
  infer_instance

/-- Request body accepted by `productUpdateSchema`, which is
`productCreateSchema` with every field optional. -/
structure ProductUpdate where
  sku : Option String
  barcode : Option String
  quantity : Option Int
  reorderPoint : Option Int
  status : Option ProductStatus
deriving DecidableEq, Repr

/-- Lookup by id, as `tx.product.findUnique` with an id filter. -/
def DB.findProduct (db : DB) (id : Nat) : Option Product :=
  db.products.find? (fun p => p.id == id)

/-- The switch on the movement type in `updateStock`: PURCHASE and RETURN
add the movement quantity, SALE, ADJUSTMENT, EXPIRED and DAMAGED
subtract it. -/
def computeNewQuantity (current : Int) (t : LogType) (m : Int) : Int :=
  match t with
  | .PURCHASE => current + m
  | .RETURN => current + m
  | .SALE => current - m
  | .ADJUSTMENT => current - m
  | .EXPIRED => current - m
  | .DAMAGED => current - m

/-- Whether a movement kind is on the increasing branch of the switch. -/
def LogType.increases : LogType → Bool
  | .PURCHASE => true
  | .RETURN => true
  | _ => false

/-- Embeds `ProductController.updateStock`: inside one transaction, read
the product (NotFoundError if absent), compute the new quantity by
movement direction, reject with the insufficient-stock ValidationError
if it would be negative, otherwise write the new quantity and the
derived status (`OUT_OF_STOCK` when the new quantity is 0, else
`ACTIVE`) and append one `InventoryLog` row recording the requested
type, quantity and reason.  A throw inside the transaction rolls
everything back, so the error branches return the incoming `DB`
unchanged. -/
def updateStock (db : DB) (id : Nat) (su : StockUpdate) :
    DB × Except ApiError Product :=
  match db.findProduct id with
  | none => (db, .error ProductNotFoundError)
  | some currentProduct =>
    let newQuantity := computeNewQuantity currentProduct.quantity su.type su.quantity
    if newQuantity < 0 then
      (db, .error InsufficientStockError)
    else
      let updatedProduct : Product :=
        { currentProduct with
          quantity := newQuantity
          status := if newQuantity == 0 then ProductStatus.OUT_OF_STOCK
                    else ProductStatus.ACTIVE }
      let newLog : InventoryLog :=
        { productId := id, type := su.type, quantity := su.quantity,
          reason := su.reason }
      ({ products := db.products.map
           (fun p => if p.id == id then updatedProduct else p),
         logs := db.logs ++ [newLog] },
       .ok updatedProduct)

/-- The duplicate check of `ProductController.create`: findFirst over a
disjunction of the requested SKU and, when supplied, the requested
barcode. -/
def skuOrBarcodeConflict (db : DB) (sku : String) (barcode : Option String) :
    Bool :=
  db.products.any (fun p =>
    p.sku == sku ||
    (match barcode with
     | some b => p.barcode == some b
     | none => false))

/-- Embeds `ProductController.create`: reject on a SKU/barcode conflict,
insert the product row (status defaulting to `ACTIVE` per the Prisma
schema when the request omits it), then — only when the requested
quantity is strictly positive — insert one synthetic PURCHASE log entry
with reason "Initial stock".  The two inserts are issued as two separate
Prisma calls with no surrounding transaction in the source, so the first
commits on its own; `logWriteFails` models a storage failure of the
second call, after which the product row remains committed with no log
entry. -/
def createProduct (db : DB) (newId : Nat) (d : ProductCreate)
    (logWriteFails : Bool) : DB × Except ApiError Product :=
  if skuOrBarcodeConflict db d.sku d.barcode then
    (db, .error (.conflict "Product with this SKU or barcode already exists"))
  else
    let product : Product :=
      { id := newId, sku := d.sku, barcode := d.barcode,
        quantity := d.quantity, reorderPoint := d.reorderPoint,
        status := d.status.getD ProductStatus.ACTIVE }
    let db1 : DB := { products := db.products ++ [product], logs := db.logs }
    if 0 < d.quantity then
      if logWriteFails then
        (db1, .error (.storage "inventory log write failed"))
      else
        ({ products := db1.products,
           logs := db1.logs ++
             [{ productId := newId, type := LogType.PURCHASE,
                quantity := d.quantity, reason := some "Initial stock" }] },
         .ok product)
    else
      (db1, .ok product)

/-- Merge an optional-field update body into an existing row, as the
Prisma update with that data object does: absent fields keep their
stored value. -/
def applyProductUpdate (p : Product) (u : ProductUpdate) : Product :=
  { id := p.id
    sku := u.sku.getD p.sku
    barcode := match u.barcode with
               | some b => some b
               | none => p.barcode
    quantity := u.quantity.getD p.quantity
    reorderPoint := u.reorderPoint.getD p.reorderPoint
    status := u.status.getD p.status }

/-- The duplicate guard of `ProductController.update`: only when the body
changes the SKU or the barcode, look for another product (different id)
carrying the new SKU or the new barcode. -/
def updateDupConflict (db : DB) (id : Nat) (existing : Product)
    (u : ProductUpdate) : Bool :=
  let skuChanged := match u.sku with
                    | some s => !(s == existing.sku)
                    | none => false
  let barcodeChanged := match u.barcode with
                        | some b => !(some b == existing.barcode)
                        | none => false
  if skuChanged || barcodeChanged then
    db.products.any (fun p =>
      !(p.id == id) &&
      ((match u.sku with
        | some s => p.sku == s
        | none => false) ||
       (match u.barcode with
        | some b => p.barcode == some b
        | none => false)))
  else false

/-- Embeds `ProductController.update`: NotFoundError if the id is absent,
ConflictError if a changed SKU/barcode collides with another product,
otherwise overwrite exactly the supplied fields.  No quantity/status
coupling is applied on this path. -/
def updateProduct (db : DB) (id : Nat) (u : ProductUpdate) :
    DB × Except ApiError Product :=
  match db.findProduct id with
  | none => (db, .error ProductNotFoundError)
  | some existing =>
    if updateDupConflict db id existing u then
      (db, .error (.conflict "Product with this SKU or barcode already exists"))
    else
      let updated := applyProductUpdate existing u
      ({ products := db.products.map
           (fun p => if p.id == id then updated else p),
         logs := db.logs },
       .ok updated)

/-- Embeds `ProductController.delete`: NotFoundError if the id is absent,
otherwise one transaction of deleteMany on the log rows referencing the
product followed by delete of the product row. -/
def deleteProduct (db : DB) (id : Nat) : DB × Except ApiError Unit :=
  match db.findProduct id with
  | none => (db, .error ProductNotFoundError)
  | some _ =>
    ({ products := db.products.filter (fun p => !(p.id == id)),
       logs := db.logs.filter (fun l => !(l.productId == id)) },
     .ok ())

/-- Embeds `ProductController.getOne` restricted to its outcome: the
product row when the id exists, NotFoundError otherwise. -/
def getOne (db : DB) (id : Nat) : Except ApiError Product :=
  match db.findProduct id with
  | none => .error ProductNotFoundError
  | some p => .ok p

/-- Embeds `ProductController.getLowStock`: findMany with quantity at
most reorderPoint and status ACTIVE, ordered by quantity ascending.  A
read-only query: it takes the `DB` and returns rows, mutating nothing. -/
def getLowStock (db : DB) : List Product :=
  (db.products.filter
    (fun p => p.quantity ≤ p.reorderPoint && p.status == ProductStatus.ACTIVE)
  ).mergeSort (fun a b => a.quantity ≤ b.quantity)

/-- The per-product invariant of the spec: a quantity of zero forces the
OUT_OF_STOCK status. -/
def productInvariant (p : Product) : Prop :=
  p.quantity = 0 → p.status = ProductStatus.OUT_OF_STOCK

instance (p : Product) : Decidable (productInvariant p) := by
  unfold productInvariant
  infer_instance

/-- The invariant lifted to the whole product table. -/
def dbInvariant (db : DB) : Prop :=
  ∀ p ∈ db.products, productInvariant p

instance (db : DB) : Decidable (dbInvariant db) := by
  unfold dbInvariant
  exact List.decidableBAll _ _

/-- Sample product used by concrete witnesses: id 0, quantity 5,
reorder point 2, ACTIVE. -/
def prodW : Product := ⟨0, "SKU-1", none, 5, 2, ProductStatus.ACTIVE⟩

/-- Sample one-product database used by concrete witnesses. -/
def dbW : DB := ⟨[prodW], []⟩

/-- Sample DISCONTINUED product, to exercise status clobbering. -/
def prodD : Product := ⟨0, "SKU-1", none, 5, 2, ProductStatus.DISCONTINUED⟩

/-- Sample database holding the DISCONTINUED product. -/
def dbD : DB := ⟨[prodD], []⟩

/-- Sample database whose single product carries three log entries. -/
def db7 : DB := ⟨[prodW],
  [⟨0, LogType.PURCHASE, 5, some "Initial stock"⟩,
   ⟨0, LogType.SALE, 1, none⟩,
   ⟨0, LogType.SALE, 2, none⟩]⟩

/-- The empty database. -/
def dbN : DB := ⟨[], []⟩

/-- Replacing the product whose id matches leaves lookup returning the
replacement, whatever the rest of the table holds. -/
theorem find_map_replace (l : List Product) (i : Nat) (p p' : Product)
    (hfind : l.find? (fun q => q.id == i) = some p) (hp' : p'.id = i) :
    (l.map (fun q => if q.id == i then p' else q)).find? (fun q => q.id == i)
      = some p' := by
  induction l with
  | nil => simp at hfind
  | cons a t ih =>
    by_cases h : (a.id == i) = true
    · have ha : a.id = i := by simpa using h
      simp [List.find?_cons, ha, hp']
    · have hf : (a.id == i) = false := by simpa using h
      simp only [List.find?_cons, List.map_cons, hf, cond_false, if_false,
        Bool.false_eq_true] at hfind ⊢
      exact ih hfind

/-- After filtering out every row with the given id, lookup of that id
returns nothing. -/
theorem find_filter_ne (l : List Product) (i : Nat) :
    (l.filter (fun p => !(p.id == i))).find? (fun p => p.id == i) = none := by
  rw [List.find?_eq_none]
  intro x hx
  have hmem := (List.mem_filter.mp hx).2
  simp only [Bool.not_eq_eq_eq_not, Bool.not_true] at hmem
  simp [hmem]

/-- C1: for an existing product with stored quantity q at least 0 and a
movement of a decreasing kind (SALE, ADJUSTMENT, EXPIRED, DAMAGED) of
positive magnitude m exceeding q, `updateStock` fails with the
insufficient-stock error and has no side effect: the returned database
is the incoming one, the product is still stored unchanged, and the log
table is untouched. -/
theorem claim1_insufficient_stock_rejected_without_side_effects
    (db : DB) (id : Nat) (su : StockUpdate) (p : Product)
    (hfind : db.findProduct id = some p)
    (hq : 0 ≤ p.quantity)
    (hdec : su.type = LogType.SALE ∨ su.type = LogType.ADJUSTMENT ∨
            su.type = LogType.EXPIRED ∨ su.type = LogType.DAMAGED)
    (hpos : 0 < su.quantity)
    (hgt : p.quantity < su.quantity) :
    updateStock db id su = (db, .error InsufficientStockError) ∧
    (updateStock db id su).1.findProduct id = some p ∧
    (updateStock db id su).1.logs = db.logs := by
  have hneg : computeNewQuantity p.quantity su.type su.quantity < 0 := by
    rcases hdec with h | h | h | h <;> rw [h] <;> simp [computeNewQuantity] <;> omega
  have hmain : updateStock db id su = (db, .error InsufficientStockError) := by
    simp [updateStock, hfind, hneg]
  refine ⟨hmain, ?_, ?_⟩ <;> rw [hmain] <;> simpa using hfind

/-- Witness for C1: on a product with quantity 5, a SALE of 6 is rejected
with the insufficient-stock error and the database is unchanged. -/
theorem claim1_witness :
    updateStock dbW 0 ⟨6, LogType.SALE, none⟩ = (dbW, .error InsufficientStockError) ∧
    (updateStock dbW 0 ⟨6, LogType.SALE, none⟩).1.findProduct 0 = some prodW ∧
    (updateStock dbW 0 ⟨6, LogType.SALE, none⟩).1.logs = dbW.logs :=
  claim1_insufficient_stock_rejected_without_side_effects dbW 0
    ⟨6, LogType.SALE, none⟩ prodW (by decide) (by decide)
    (Or.inl rfl) (by decide) (by decide)

/-- C2: an accepted movement of positive magnitude m on an existing
product with quantity q persists quantity q + m for the increasing kinds
(PURCHASE, RETURN) and q - m for the decreasing kinds when m is at most
q, and appends exactly one log entry carrying the requested type,
magnitude and reason in the same atomic state transition as the product
update. -/
theorem claim2_accepted_movement_updates_quantity_and_appends_log
    (db : DB) (id : Nat) (su : StockUpdate) (p : Product)
    (hfind : db.findProduct id = some p)
    (hq : 0 ≤ p.quantity)
    (hm : 0 < su.quantity)
    (hcase : su.type.increases = true ∨ su.quantity ≤ p.quantity) :
    ∃ p', (updateStock db id su).2 = .ok p' ∧
      p'.quantity = (if su.type.increases then p.quantity + su.quantity
                     else p.quantity - su.quantity) ∧
      (updateStock db id su).1.findProduct id = some p' ∧
      (updateStock db id su).1.logs
        = db.logs ++ [⟨id, su.type, su.quantity, su.reason⟩] := by
  have hnn : ¬ computeNewQuantity p.quantity su.type su.quantity < 0 := by
    rcases hcase with h | h
    · cases htype : su.type <;> simp [htype, LogType.increases] at h ⊢ <;>
        simp [computeNewQuantity] <;> omega
    · cases htype : su.type <;> simp [computeNewQuantity] <;> omega
  have hid : p.id = id := by
    have := List.find?_some hfind
    simpa using this
  refine ⟨{ p with
      quantity := computeNewQuantity p.quantity su.type su.quantity
      status := if computeNewQuantity p.quantity su.type su.quantity == 0
                then ProductStatus.OUT_OF_STOCK else ProductStatus.ACTIVE },
    ?_, ?_, ?_, ?_⟩
  · simp [updateStock, hfind, hnn]
  · cases htype : su.type <;>
      simp [htype, LogType.increases, computeNewQuantity]
  · simp only [updateStock, hfind, if_neg hnn]
    exact find_map_replace db.products id p _ hfind (by simpa using hid)
  · simp [updateStock, hfind, hnn]

/-- Witness for C2: a PURCHASE of 3 on a product with quantity 5 persists
quantity 8 and appends one PURCHASE log entry of magnitude 3 with the
requested reason. -/
theorem claim2_witness :
    ∃ p', (updateStock dbW 0 ⟨3, LogType.PURCHASE, some "restock"⟩).2 = .ok p' ∧
      p'.quantity = (if (LogType.PURCHASE).increases then prodW.quantity + 3
                     else prodW.quantity - 3) ∧
      (updateStock dbW 0 ⟨3, LogType.PURCHASE, some "restock"⟩).1.findProduct 0 = some p' ∧
      (updateStock dbW 0 ⟨3, LogType.PURCHASE, some "restock"⟩).1.logs
        = dbW.logs ++ [⟨0, LogType.PURCHASE, 3, some "restock"⟩] :=
  claim2_accepted_movement_updates_quantity_and_appends_log dbW 0
    ⟨3, LogType.PURCHASE, some "restock"⟩ prodW (by decide) (by decide)
    (by decide) (Or.inl rfl)

/-- C3: after every accepted stock movement the persisted product status
is OUT_OF_STOCK exactly when the new quantity is 0 and ACTIVE otherwise,
whatever the prior status was — a DISCONTINUED or EXPIRED status is
overwritten, since the incoming database is arbitrary. -/
theorem claim3_status_derived_unconditionally
    (db db' : DB) (id : Nat) (su : StockUpdate) (p' : Product)
    (hok : updateStock db id su = (db', .ok p')) :
    db'.findProduct id = some p' ∧
    p'.status = (if p'.quantity = 0 then ProductStatus.OUT_OF_STOCK
                 else ProductStatus.ACTIVE) := by
  unfold updateStock at hok
  cases hfind : db.findProduct id with
  | none => rw [hfind] at hok; simp at hok
  | some p =>
    rw [hfind] at hok
    dsimp only at hok
    by_cases hneg : computeNewQuantity p.quantity su.type su.quantity < 0
    · rw [if_pos hneg] at hok; simp at hok
    · rw [if_neg hneg] at hok
      simp only [Prod.mk.injEq, Except.ok.injEq] at hok
      obtain ⟨hdb', hp'⟩ := hok
      have hid : p.id = id := by
        have := List.find?_some hfind
        simpa using this
      constructor
      · rw [← hdb', ← hp']
        simp only [DB.findProduct]
        exact find_map_replace db.products id p _ hfind (by simpa using hid)
      · rw [← hp']
        by_cases hz : computeNewQuantity p.quantity su.type su.quantity = 0 <;>
          simp [hz]

/-- Witness for C3: selling the full stock of a DISCONTINUED product
drives the quantity to 0 and rewrites the status to OUT_OF_STOCK,
clobbering DISCONTINUED. -/
theorem claim3_witness :
    (⟨[⟨0, "SKU-1", none, 0, 2, ProductStatus.OUT_OF_STOCK⟩],
      [⟨0, LogType.SALE, 5, none⟩]⟩ : DB).findProduct 0
        = some ⟨0, "SKU-1", none, 0, 2, ProductStatus.OUT_OF_STOCK⟩ ∧
    (⟨0, "SKU-1", none, 0, 2, ProductStatus.OUT_OF_STOCK⟩ : Product).status
      = (if (⟨0, "SKU-1", none, 0, 2, ProductStatus.OUT_OF_STOCK⟩ : Product).quantity = 0
         then ProductStatus.OUT_OF_STOCK else ProductStatus.ACTIVE) :=
  claim3_status_derived_unconditionally dbD _ 0 ⟨5, LogType.SALE, none⟩ _ (by decide)

/-- Counterexample to C4 as stated: a SALE with the negative quantity -3
passes the integer-only validation, is accepted on a product with
quantity 5 (which becomes 8), and the created log entry stores the
quantity -3 — not a positive magnitude. -/
theorem claim4_counterexample :
    (updateStock dbW 0 ⟨-3, LogType.SALE, none⟩).2
      = .ok ⟨0, "SKU-1", none, 8, 2, ProductStatus.ACTIVE⟩ ∧
    (updateStock dbW 0 ⟨-3, LogType.SALE, none⟩).1.logs
      = [⟨0, LogType.SALE, -3, none⟩] ∧
    ¬ (0 < (-3 : Int)) := by decide

/-- C4 amended: the movement quantity is validated only as an integer,
and every accepted stock adjustment appends exactly one log entry whose
stored quantity equals the requested integer verbatim — possibly zero or
negative, not necessarily a positive magnitude. -/
theorem claim4_amended_log_stores_requested_quantity
    (db db' : DB) (id : Nat) (su : StockUpdate) (p' : Product)
    (hok : updateStock db id su = (db', .ok p')) :
    db'.logs = db.logs ++ [⟨id, su.type, su.quantity, su.reason⟩] := by
  unfold updateStock at hok
  cases hfind : db.findProduct id with
  | none => rw [hfind] at hok; simp at hok
  | some p =>
    rw [hfind] at hok
    dsimp only at hok
    by_cases hneg : computeNewQuantity p.quantity su.type su.quantity < 0
    · rw [if_pos hneg] at hok; simp at hok
    · rw [if_neg hneg] at hok
      simp only [Prod.mk.injEq, Except.ok.injEq] at hok
      rw [← hok.1]

/-- Witness for the amended C4: an ADJUSTMENT of 4 appends exactly the
requested entry to the log table. -/
theorem claim4_witness :
    (⟨[⟨0, "SKU-1", none, 1, 2, ProductStatus.ACTIVE⟩],
      [⟨0, LogType.ADJUSTMENT, 4, some "audit"⟩]⟩ : DB).logs
      = dbW.logs ++ [⟨0, LogType.ADJUSTMENT, 4, some "audit"⟩] :=
  claim4_amended_log_stores_requested_quantity dbW _ 0
    ⟨4, LogType.ADJUSTMENT, some "audit"⟩
    ⟨0, "SKU-1", none, 1, 2, ProductStatus.ACTIVE⟩ (by decide)

/-- C5 at its failing input: creating a product with initial quantity 20
when the storage layer fails the log insert (the source issues the
product insert and the log insert as two separate calls outside any
transaction) leaves the product row committed with zero log entries —
the both-or-neither guarantee the claim states does not hold.  The
second and third conjuncts record the failure-free paths, which do match
the claim: one PURCHASE entry with reason "Initial stock" for a positive
initial quantity, no entry for quantity 0. -/
theorem claim5_create_product_log_not_atomic :
    createProduct dbN 1 ⟨"SKU-2", none, 20, 3, none⟩ true
      = (⟨[⟨1, "SKU-2", none, 20, 3, ProductStatus.ACTIVE⟩], []⟩,
         .error (.storage "inventory log write failed")) ∧
    createProduct dbN 1 ⟨"SKU-2", none, 20, 3, none⟩ false
      = (⟨[⟨1, "SKU-2", none, 20, 3, ProductStatus.ACTIVE⟩],
          [⟨1, LogType.PURCHASE, 20, some "Initial stock"⟩]⟩,
         .ok ⟨1, "SKU-2", none, 20, 3, ProductStatus.ACTIVE⟩) ∧
    createProduct dbN 1 ⟨"SKU-2", none, 0, 3, none⟩ false
      = (⟨[⟨1, "SKU-2", none, 0, 3, ProductStatus.ACTIVE⟩], []⟩,
         .ok ⟨1, "SKU-2", none, 0, 3, ProductStatus.ACTIVE⟩) := by decide

/-- Counterexample to C6 as stated: createProduct with initial quantity 0
commits a product whose status defaults to ACTIVE, and updateProduct can
set the quantity to 0 without touching the status — both reach a
committed state with quantity 0 and status ACTIVE, so the invariant is
not enforced on every core mutation. -/
theorem claim6_counterexample :
    (createProduct dbN 1 ⟨"SKU-2", none, 0, 3, none⟩ false).1.products
      = [⟨1, "SKU-2", none, 0, 3, ProductStatus.ACTIVE⟩] ∧
    (updateProduct dbW 0 ⟨none, none, some 0, none, none⟩).1.products
      = [⟨0, "SKU-1", none, 0, 2, ProductStatus.ACTIVE⟩] ∧
    ¬ productInvariant ⟨1, "SKU-2", none, 0, 3, ProductStatus.ACTIVE⟩ ∧
    ¬ dbInvariant (updateProduct dbW 0 ⟨none, none, some 0, none, none⟩).1 := by
  decide

/-- C6 amended: the stock-adjustment operation preserves the invariant
that a zero quantity forces the OUT_OF_STOCK status across the whole
product table; the create and update paths do not enforce it. -/
theorem claim6_amended_adjust_stock_preserves_invariant
    (db : DB) (id : Nat) (su : StockUpdate)
    (hinv : dbInvariant db) : dbInvariant (updateStock db id su).1 := by
  unfold updateStock
  cases hfind : db.findProduct id with
  | none => exact hinv
  | some p =>
    by_cases hneg : computeNewQuantity p.quantity su.type su.quantity < 0
    · simpa [hneg] using hinv
    · simp only [if_neg hneg]
      intro q hq
      simp only [List.mem_map] at hq
      obtain ⟨r, hr, hrq⟩ := hq
      by_cases hrid : (r.id == id) = true
      · rw [if_pos hrid] at hrq
        intro hq0
        rw [← hrq] at hq0 ⊢
        simp only at hq0 ⊢
        simp [hq0]
      · rw [if_neg hrid] at hrq
        rw [← hrq]
        exact hinv r hr

/-- Witness for the amended C6: selling the full stock keeps the whole
table satisfying the invariant. -/
theorem claim6_witness : dbInvariant (updateStock dbW 0 ⟨5, LogType.SALE, none⟩).1 :=
  claim6_amended_adjust_stock_preserves_invariant dbW 0
    ⟨5, LogType.SALE, none⟩ (by decide)

/-- C7: deleting an absent id fails with NotFoundError and leaves the
state unchanged; deleting an existing product removes, in one atomic
state transition, the product row and every log entry referencing it
(and only those), after which a fetch of that id returns NotFoundError. -/
theorem claim7_delete_cascades_and_not_found (db : DB) (id : Nat) :
    (db.findProduct id = none →
      deleteProduct db id = (db, .error ProductNotFoundError)) ∧
    (∀ p, db.findProduct id = some p →
      (deleteProduct db id).2 = .ok () ∧
      (deleteProduct db id).1.findProduct id = none ∧
      (∀ l ∈ (deleteProduct db id).1.logs, l.productId ≠ id) ∧
      (∀ l ∈ db.logs, l.productId ≠ id → l ∈ (deleteProduct db id).1.logs) ∧
      getOne (deleteProduct db id).1 id = .error ProductNotFoundError) := by
  constructor
  · intro h
    simp [deleteProduct, h]
  · intro p hp
    have hdel : deleteProduct db id =
        (⟨db.products.filter (fun q => !(q.id == id)),
          db.logs.filter (fun l => !(l.productId == id))⟩, .ok ()) := by
      simp [deleteProduct, hp]
    have hfp : (deleteProduct db id).1.findProduct id = none := by
      rw [hdel]
      exact find_filter_ne db.products id
    refine ⟨by rw [hdel], hfp, ?_, ?_, ?_⟩
    · intro l hl
      rw [hdel] at hl
      have := (List.mem_filter.mp hl).2
      simpa using this
    · intro l hl hne
      rw [hdel]
      exact List.mem_filter.mpr ⟨hl, by simpa using hne⟩
    · simp [getOne, hfp]

/-- Witness for C7: deleting an absent id (9) on the empty database fails
with NotFoundError; deleting a product carrying three log entries
succeeds, its id no longer resolves, and a subsequent fetch returns
NotFoundError. -/
theorem claim7_witness :
    deleteProduct dbN 9 = (dbN, .error ProductNotFoundError) ∧
    (deleteProduct db7 0).2 = .ok () ∧
    (deleteProduct db7 0).1.findProduct 0 = none ∧
    getOne (deleteProduct db7 0).1 0 = .error ProductNotFoundError :=
  ⟨(claim7_delete_cascades_and_not_found dbN 9).1 (by decide),
   ((claim7_delete_cascades_and_not_found db7 0).2 prodW (by decide)).1,
   ((claim7_delete_cascades_and_not_found db7 0).2 prodW (by decide)).2.1,
   ((claim7_delete_cascades_and_not_found db7 0).2 prodW (by decide)).2.2.2.2⟩

/-- C8: a stock adjustment against an absent product id fails with
NotFoundError and changes nothing, and a second call with the same
absent id fails the same way, with the log table unchanged across both
calls — zero entries created in total. -/
theorem claim8_not_found_failure_idempotent
    (db : DB) (id : Nat) (su su2 : StockUpdate)
    (h : db.findProduct id = none) :
    updateStock db id su = (db, .error ProductNotFoundError) ∧
    updateStock (updateStock db id su).1 id su2 = (db, .error ProductNotFoundError) ∧
    (updateStock (updateStock db id su).1 id su2).1.logs = db.logs := by
  have h1 : updateStock db id su = (db, .error ProductNotFoundError) := by
    simp [updateStock, h]
  refine ⟨h1, ?_, ?_⟩ <;> rw [h1] <;> simp [updateStock, h]

/-- Witness for C8: two stock adjustments against id 9 on the empty
database both fail with NotFoundError and create no log entry. -/
theorem claim8_witness :
    updateStock dbN 9 ⟨1, LogType.SALE, none⟩ = (dbN, .error ProductNotFoundError) ∧
    updateStock (updateStock dbN 9 ⟨1, LogType.SALE, none⟩).1 9 ⟨2, LogType.PURCHASE, none⟩
      = (dbN, .error ProductNotFoundError) ∧
    (updateStock (updateStock dbN 9 ⟨1, LogType.SALE, none⟩).1 9
        ⟨2, LogType.PURCHASE, none⟩).1.logs = dbN.logs :=
  claim8_not_found_failure_idempotent dbN 9 ⟨1, LogType.SALE, none⟩
    ⟨2, LogType.PURCHASE, none⟩ (by decide)

/-- C9: the low-stock view is a pure function of the stored state and
returns exactly the products whose quantity is at most their reorder
point and whose status is ACTIVE: membership is equivalent to that
condition, and the returned rows are a permutation of the matching rows
(ordering by quantity only). -/
theorem claim9_low_stock_exactly_filters (db : DB) (p : Product) :
    (p ∈ getLowStock db ↔
      p ∈ db.products ∧ p.quantity ≤ p.reorderPoint ∧
      p.status = ProductStatus.ACTIVE) ∧
    (getLowStock db).Perm
      (db.products.filter
        (fun q => q.quantity ≤ q.reorderPoint && q.status == ProductStatus.ACTIVE)) := by
  constructor
  · unfold getLowStock
    rw [List.mem_mergeSort, List.mem_filter]
    simp [and_assoc]
  · exact List.mergeSort_perm _ _

/-- C10: for an existing product with non-negative quantity, the stock
adjustment is rejected exactly when the computed new quantity (current
quantity plus the signed effect of the movement) is negative; the
quantity input is validated only as an integer, so a SALE with a
negative quantity m is accepted and increases the stored quantity by the
absolute value of m, and a zero-magnitude movement of any kind is
accepted, appends a log entry, and rewrites the status. -/
theorem claim10_reject_iff_negative_integer_only_validation
    (db : DB) (id : Nat) (p : Product)
    (hfind : db.findProduct id = some p) (hq : 0 ≤ p.quantity) :
    (∀ su : StockUpdate,
        (updateStock db id su).2 = .error InsufficientStockError ↔
          computeNewQuantity p.quantity su.type su.quantity < 0) ∧
    (∀ m : Int, ∀ reason : Option String, m < 0 →
        ∃ p', (updateStock db id ⟨m, LogType.SALE, reason⟩).2 = .ok p' ∧
          p'.quantity = p.quantity + (-m)) ∧
    (∀ t : LogType, ∀ reason : Option String, ∃ p',
        (updateStock db id ⟨0, t, reason⟩).2 = .ok p' ∧
        p'.quantity = p.quantity ∧
        p'.status = (if p.quantity = 0 then ProductStatus.OUT_OF_STOCK
                     else ProductStatus.ACTIVE) ∧
        (updateStock db id ⟨0, t, reason⟩).1.logs
          = db.logs ++ [⟨id, t, 0, reason⟩]) := by
  refine ⟨?_, ?_, ?_⟩
  · intro su
    constructor
    · intro herr
      by_contra hneg
      simp [updateStock, hfind, hneg] at herr
    · intro hneg
      simp [updateStock, hfind, hneg]
  · intro m reason hm
    have hnn : ¬ computeNewQuantity p.quantity LogType.SALE m < 0 := by
      simp [computeNewQuantity]; omega
    refine ⟨{ p with
        quantity := computeNewQuantity p.quantity LogType.SALE m
        status := if computeNewQuantity p.quantity LogType.SALE m == 0
                  then ProductStatus.OUT_OF_STOCK else ProductStatus.ACTIVE },
      by simp [updateStock, hfind, hnn], ?_⟩
    simp [computeNewQuantity]
    omega
  · intro t reason
    have hnn : ¬ computeNewQuantity p.quantity t 0 < 0 := by
      cases t <;> simp [computeNewQuantity] <;> omega
    have hq0 : computeNewQuantity p.quantity t 0 = p.quantity := by
      cases t <;> simp [computeNewQuantity]
    refine ⟨{ p with
        quantity := computeNewQuantity p.quantity t 0
        status := if computeNewQuantity p.quantity t 0 == 0
                  then ProductStatus.OUT_OF_STOCK else ProductStatus.ACTIVE },
      by simp [updateStock, hfind, hnn], ?_, ?_, ?_⟩
    · exact hq0
    · rw [hq0]
      by_cases hz : p.quantity = 0 <;> simp [hz]
    · simp [updateStock, hfind, hnn]

/-- Witness for C10: on a product with quantity 5, a SALE of 6 is
rejected exactly because 5 - 6 is negative; a SALE of -3 is accepted and
raises the quantity to 5 + 3; a DAMAGED movement of 0 is accepted,
leaves the quantity at 5, rewrites the status, and appends a
zero-quantity log entry. -/
theorem claim10_witness :
    ((updateStock dbW 0 ⟨6, LogType.SALE, some "s"⟩).2 = .error InsufficientStockError ↔
       computeNewQuantity prodW.quantity LogType.SALE 6 < 0) ∧
    (∃ p', (updateStock dbW 0 ⟨-3, LogType.SALE, none⟩).2 = .ok p' ∧
       p'.quantity = prodW.quantity + (-(-3))) ∧
    (∃ p', (updateStock dbW 0 ⟨0, LogType.DAMAGED, some "noop"⟩).2 = .ok p' ∧
       p'.quantity = prodW.quantity ∧
       p'.status = (if prodW.quantity = 0 then ProductStatus.OUT_OF_STOCK
                    else ProductStatus.ACTIVE) ∧
       (updateStock dbW 0 ⟨0, LogType.DAMAGED, some "noop"⟩).1.logs
         = dbW.logs ++ [⟨0, LogType.DAMAGED, 0, some "noop"⟩]) :=
  ⟨(claim10_reject_iff_negative_integer_only_validation dbW 0 prodW
      (by decide) (by decide)).1 ⟨6, LogType.SALE, some "s"⟩,
   (claim10_reject_iff_negative_integer_only_validation dbW 0 prodW
      (by decide) (by decide)).2.1 (-3) none (by decide),
   (claim10_reject_iff_negative_integer_only_validation dbW 0 prodW
      (by decide) (by decide)).2.2 LogType.DAMAGED (some "noop")⟩
